import Mathlib

/-!
Shallow embedding of the `simply org create scratch` command
(`src/commands/simply/org/create/scratch.ts`) and of the capacity helper
(`common/orgUtils.ts`) of the SimplySF/simply-org repository, together with
theorems settling the frozen claims about their behaviour.
-/

namespace SimplyOrg

/-! ## Data model: API limits (`common/orgUtils.ts`) -/

/-- One key of the remote `/limits` JSON response: key name together with its
`Max` and `Remaining` numeric fields. -/
structure LimitEntry where
  name : String
  maxField : Int
  remainingField : Int
deriving Repr, DecidableEq

/-- `Limit` from `limitTypes.js`: `{ name, max, remaining }`. -/
structure Limit where
  name : String
  max : Int
  remaining : Int
deriving Repr, DecidableEq

/-- `getApiLimits`: flattens the remote key→`{Max, Remaining}` mapping into a
list of `Limit` records.  The connection is modelled by the response it
returns. -/
def getApiLimits (response : List LimitEntry) : List Limit :=
  response.map (fun e => { name := e.name, max := e.maxField, remaining := e.remainingField })

/-- `canCreateScratchOrg` from `common/orgUtils.ts`: fetches the limits,
looks up the `ActiveScratchOrgs` and `DailyScratchOrgs` counters, defaults a
missing counter's remaining value to `0` (`?.remaining ?? 0`), and requires
both remaining values to be strictly positive. -/
def canCreateScratchOrg (response : List LimitEntry) : Bool :=
  let limits := getApiLimits response
  let activeScratchOrgs := limits.find? (fun limit => limit.name == "ActiveScratchOrgs")
  let dailyScratchOrgs := limits.find? (fun limit => limit.name == "DailyScratchOrgs")
  let activeRemaining := (activeScratchOrgs.map Limit.remaining).getD 0
  let dailyRemaining := (dailyScratchOrgs.map Limit.remaining).getD 0
  decide (0 < activeRemaining) && decide (0 < dailyRemaining)

/-! ## Hub selection (`OrgCreateScratch.run`, lines 166-183) -/

/-- A candidate dev hub, as probed by the selection loop: the username supplied
via `--target-dev-hub` together with the outcome of the
`AuthInfo.create`/`Connection.create` step — either a propagated failure
message or the `/limits` response served by the resulting connection. -/
structure DevHub where
  username : String
  connect : Except String (List LimitEntry)

/-- Errors raised by the hub-selection part of `run`: the `noAvailableDevhubs`
message error thrown once the candidate list is exhausted, and a propagated
per-candidate connection/authentication failure. -/
inductive HubError where
  | noAvailableDevHubs : HubError
  | connectionFailure (message : String) : HubError
deriving Repr, DecidableEq

/-- The `for (const targetDevHub of flags['target-dev-hub'] ?? [])` loop of
`run` followed by the `if (!targetDevHubOrg) throw` guard: candidates are
probed in the caller-supplied order; a connection failure propagates; the
first candidate whose `canCreateScratchOrg` check succeeds is selected
(`break`); an exhausted list yields the `noAvailableDevhubs` error.  The first
component records the usernames actually contacted, in order. -/
def selectDevHub : List DevHub → List String × Except HubError DevHub
  | [] => ([], Except.error HubError.noAvailableDevHubs)
  | hub :: rest =>
    match hub.connect with
    | Except.error e => ([hub.username], Except.error (HubError.connectionFailure e))
    | Except.ok response =>
      if canCreateScratchOrg response then
        ([hub.username], Except.ok hub)
      else
        (hub.username :: (selectDevHub rest).1, (selectDevHub rest).2)

/-- Fixture: a hub whose `ActiveScratchOrgs` counter has nothing remaining. -/
def hubA : DevHub := ⟨"hubA", Except.ok [⟨"ActiveScratchOrgs", 100, 0⟩]⟩

/-- Fixture: a hub with remaining capacity on both tracked counters. -/
def hubB : DevHub :=
  ⟨"hubB", Except.ok [⟨"ActiveScratchOrgs", 100, 3⟩, ⟨"DailyScratchOrgs", 200, 1⟩]⟩

/-- Fixture: a hub whose limits response is never consulted in the examples. -/
def hubC : DevHub := ⟨"hubC", Except.ok []⟩

/-! ## JS string primitives used by the command -/

/-- JS `String.prototype.startsWith`: a prefix test on the character
sequence. -/
def jsStartsWith (s p : String) : Bool := p.data.isPrefixOf s.data

/-- Helper for JS `String.prototype.replace` with a one-character string
pattern: replaces the first occurrence only. -/
def replaceFirstChar : List Char → Char → Char → List Char
  | [], _, _ => []
  | c :: cs, pat, repl => if c = pat then repl :: cs else c :: replaceFirstChar cs pat repl

/-- JS `value.replace(pat, repl)` for one-character `pat` and `repl`: only the
first occurrence of the pattern is replaced. -/
def jsReplaceChar (s : String) (pat repl : Char) : String := ⟨replaceFirstChar s.data pat repl⟩

/-! ## The `edition` flag (lines 76-100) -/

/-- The allowed values of the `edition` flag. -/
def editionOptions : List String :=
  ["developer", "enterprise", "group", "professional",
   "partner-developer", "partner-enterprise", "partner-group", "partner-professional"]

/-- The `parse` handler of the `edition` flag (lines 91-98): the API expects
partner editions in `partner <EDITION>` format, so a leading `partner-` gets
its hyphen replaced by a space; every other value is returned unchanged. -/
def editionParse (value : String) : String :=
  if jsStartsWith value "partner-" then jsReplaceChar value '-' ' ' else value

/-! ## The `source-org` flag (lines 125-132) -/

/-- Configuration accepted by the `Flags.salesforceId` flag type: the required
leading characters and the required length (`none` models the `both` setting,
which accepts 15 and 18). -/
structure IdFlagConfig where
  startsWith : String
  length : Option Nat

/-- Modelled from the spec: the validator of the external
`Flags.salesforceId` flag type (`@salesforce/sf-plugins-core`, not part of
this repository).  It accepts an input iff the input's character count is the
configured length (15 and 18 both qualify when no single length is
configured) and the input begins with the configured characters. -/
def salesforceIdAccepts (cfg : IdFlagConfig) (input : String) : Bool :=
  decide (input.length ∈ (match cfg.length with | some n => [n] | none => [15, 18]))
    && jsStartsWith input cfg.startsWith

/-- The `source-org` flag declaration: `startsWith: '00D'`, `length: 15`. -/
def sourceOrgFlagConfig : IdFlagConfig := { startsWith := "00D", length := some 15 }

/-! ## Flags and the assembled `orgConfig` (lines 163-216) -/

/-- The parsed flags of one invocation.  The definition file is modelled by
its parsed JSON object (`none` when the flag is absent); durations are in
their flag units (days for `duration-days`, minutes for `wait`). -/
structure RunFlags where
  aliasName : Option String
  apiVersion : Option String
  async : Bool
  clientId : Option String
  definitionFile : Option (List (String × String))
  description : Option String
  durationDays : Nat
  edition : Option String
  name : Option String
  noAncestors : Bool
  noNamespace : Bool
  release : Option String
  setDefault : Bool
  sourceOrg : Option String
  trackSource : Bool
  username : Option String
  wait : Nat
  adminEmail : Option String

/-- A JS object with string values, as a key-indexed lookup. -/
def StrMap := String → Option String

/-- The empty object `{}`. -/
def StrMap.empty : StrMap := fun _ => none

/-- Adding one key to an object: the new binding shadows any old one. -/
def StrMap.insert (m : StrMap) (key val : String) : StrMap :=
  fun k => if k = key then some val else m k

/-- A parsed JSON object literal: keys are inserted in order, so a later
duplicate key overrides an earlier one. -/
def StrMap.ofPairs (pairs : List (String × String)) : StrMap :=
  pairs.foldl (fun m kv => m.insert kv.1 kv.2) StrMap.empty

/-- One guarded spread `...(flag ? { key: flag } : {})` of the `orgConfig`
literal: JS truthiness makes both an absent flag and an empty-string flag
spread nothing. -/
def overlay (flag : Option String) (key : String) (m : StrMap) : StrMap :=
  match flag with
  | some v => if v == "" then m else m.insert key v
  | none => m

/-- The definition-file stage of the `orgConfig` literal (lines 202-204): the
parsed JSON of the definition file when one was supplied, `{}` otherwise. -/
def fileConfig (flags : RunFlags) : StrMap :=
  match flags.definitionFile with
  | some pairs => StrMap.ofPairs pairs
  | none => StrMap.empty

/-- The assembled `orgConfig` object (lines 201-212): the definition-file
keys are spread first, then one guarded spread per overriding flag, in source
order (`edition`, `username`, `description`, `name`→`orgName`, `release`,
`source-org`→`sourceOrg`, `admin-email`→`adminEmail`). -/
def orgConfig (flags : RunFlags) : StrMap :=
  overlay flags.adminEmail "adminEmail"
    (overlay flags.sourceOrg "sourceOrg"
      (overlay flags.release "release"
        (overlay flags.name "orgName"
          (overlay flags.description "description"
            (overlay flags.username "username"
              (overlay flags.edition "edition" (fileConfig flags)))))))

/-- The `ScratchOrgCreateOptions` record handed to `scratchOrgCreate`
(lines 190-216); `wait` is in minutes. -/
structure ScratchOrgCreateOptions where
  aliasName : Option String
  apiversion : Option String
  clientSecret : Option String
  connectedAppConsumerKey : Option String
  durationDays : Nat
  hubOrgUsername : String
  nonamespace : Bool
  noancestors : Bool
  orgConfig : StrMap
  setDefault : Bool
  tracksSource : Bool
  wait : Nat

/-- What `run` sets up before calling `scratchOrgCreate`: the options record,
whether the scratch-org lifecycle progress subscription was installed, and
the spinner caption. -/
structure RunSetup where
  options : ScratchOrgCreateOptions
  progressSubscribed : Bool
  spinnerCaption : String

/-- Lines 190-233 of `run`: assembles `scratchOrgCreateOptions` for the
selected hub (`secretInput` models the value the interactive secret prompt
returns when a client id was given), installs the progress subscription only
when `--async` is not set, and forces the wait duration to zero minutes when
it is. -/
def runSetup (flags : RunFlags) (hub : DevHub) (secretInput : String) : RunSetup :=
  { options :=
      { aliasName := flags.aliasName
        apiversion := flags.apiVersion
        clientSecret :=
          match flags.clientId with
          | some v => if v == "" then none else some secretInput
          | none => none
        connectedAppConsumerKey := flags.clientId
        durationDays := flags.durationDays
        hubOrgUsername := hub.username
        nonamespace := flags.noNamespace
        noancestors := flags.noAncestors
        orgConfig := orgConfig flags
        setDefault := flags.setDefault
        tracksSource := flags.trackSource
        wait := if flags.async then 0 else flags.wait }
    progressSubscribed := !flags.async
    spinnerCaption :=
      if flags.async then "Requesting Scratch Org (will not wait for completion because --async)"
      else "Creating Scratch Org" }

/-- Fixture: an invocation with every optional flag absent and the defaults
of the declarations (7 days duration, 5 minutes wait, source tracking on). -/
def flagsFixture : RunFlags :=
  { aliasName := none
    apiVersion := none
    async := false
    clientId := none
    definitionFile := none
    description := none
    durationDays := 7
    edition := none
    name := none
    noAncestors := false
    noNamespace := false
    release := none
    setDefault := false
    sourceOrg := none
    trackSource := true
    username := none
    wait := 5
    adminEmail := none }

/-! ## Outcome handling around the `scratchOrgCreate` call (lines 235-261) -/

/-- An `SfError` as observed by the catch block: its `name`, its `message`,
and the `scratchOrgInfoId` carried in its `data` payload when one is
present. -/
structure SfError where
  name : String
  message : String
  data : Option String
deriving Repr, DecidableEq

/-- An error thrown by the `scratchOrgCreate` call: either an `SfError` or
any other thrown value. -/
inductive CreateError where
  | sfError (e : SfError)
  | other (message : String)
deriving Repr, DecidableEq

/-- The scratch-org info record of a provisioning result; only its `Id` (the
`ScratchOrgInfo` job identifier) is consulted by the command. -/
structure ScratchOrgInfo where
  Id : String
deriving Repr, DecidableEq

/-- The authentication fields of a provisioning result; only `orgId` is
consulted by the command. -/
structure AuthFields where
  orgId : Option String
deriving Repr, DecidableEq

/-- The payload resolved by `scratchOrgCreate`:
`{ username, scratchOrgInfo, authFields, warnings }`, each of the first three
possibly absent. -/
structure CreateResult where
  username : Option String
  scratchOrgInfo : Option ScratchOrgInfo
  authFields : Option AuthFields
  warnings : List String
deriving Repr, DecidableEq

/-- The record `run` returns on success:
`{ username, scratchOrgInfo, authFields, warnings, orgId: authFields?.orgId }`. -/
structure ScratchCreateResponse where
  username : Option String
  scratchOrgInfo : Option ScratchOrgInfo
  authFields : Option AuthFields
  warnings : List String
  orgId : Option String
deriving Repr, DecidableEq

/-- How one invocation of `run` ends after the `scratchOrgCreate` call:
a returned response, a `this.error(..., { exit })` termination with a fixed
exit code, or a rethrown error. -/
inductive CmdOutcome where
  | completed (response : ScratchCreateResponse)
  | exited (code : Nat) (message : String)
  | threw (e : CreateError)
deriving Repr, DecidableEq

/-- Modelled from the spec: the localized `action.resume` message (the
messages catalog of the repository is outside `src/`); it interpolates the
CLI binary name and the scratch-org job identifier. -/
def actionResume (bin jobId : String) : String :=
  "Run " ++ bin ++ " simply org resume scratch --job-id " ++ jobId ++
    " to resume scratch org creation"

/-- Modelled from the spec: the localized `success` message (the messages
catalog of the repository is outside `src/`). -/
def successMessage : String := "Scratch org created successfully"

/-- The `try`/`catch` around `scratchOrgCreate` (lines 235-261): on success a
missing `scratchOrgInfo` raises an internal `SfError`, otherwise the resume
hint (async) or the success message is logged and the response record is
returned; an `SfError` named `ScratchOrgInfoTimeoutError` is intercepted, its
`data`'s `scratchOrgInfoId` is echoed in a resume hint and the command exits
with code 69; every other error is rethrown unchanged.  The first component
collects the info/success messages emitted. -/
def handleCreateOutcome (bin : String) (asyncFlag : Bool)
    (outcome : Except CreateError CreateResult) : List String × CmdOutcome :=
  match outcome with
  | Except.ok result =>
    match result.scratchOrgInfo with
    | none =>
      ([], CmdOutcome.threw (CreateError.sfError
        ⟨"SfError", "The scratch org did not return with any information", none⟩))
    | some info =>
      (if asyncFlag then [actionResume bin info.Id] else [successMessage],
        CmdOutcome.completed
          { username := result.username
            scratchOrgInfo := some info
            authFields := result.authFields
            warnings := result.warnings
            orgId := result.authFields.bind AuthFields.orgId })
  | Except.error err =>
    match err with
    | CreateError.sfError se =>
      if se.name == "ScratchOrgInfoTimeoutError" then
        match se.data with
        | some jobId =>
          ([actionResume bin jobId],
            CmdOutcome.exited 69 "The scratch org did not complete within your wait time")
        | none =>
          ([], CmdOutcome.threw (CreateError.other
            "TypeError: cannot read scratchOrgInfoId of undefined"))
      else ([], CmdOutcome.threw err)
    | CreateError.other _ => ([], CmdOutcome.threw err)

end SimplyOrg

namespace SimplyOrg

/-- Probing a block of candidates that all connect but all fail the capacity
check only accumulates their usernames in the trace and continues with the
rest of the list. -/
theorem selectDevHub_skip (pre rest : List DevHub) :
    (∀ h ∈ pre, ∃ r, h.connect = Except.ok r ∧ canCreateScratchOrg r = false) →
    selectDevHub (pre ++ rest) =
      (pre.map DevHub.username ++ (selectDevHub rest).1, (selectDevHub rest).2) := by
  induction pre with
  | nil => intro _; simp
  | cons h t ih =>
    intro hall
    obtain ⟨r, hr, hcr⟩ := hall h (List.mem_cons_self h t)
    have hrec := ih (fun h' hm => hall h' (List.mem_cons_of_mem h hm))
    simp [selectDevHub, hr, hcr, hrec]

/-- C1: The capacity check returns `true` iff both the `ActiveScratchOrgs` and the
`DailyScratchOrgs` counters are found in the response with a strictly positive
remaining value; when either counter is absent the check returns `false`
(absence is treated as zero remaining), it never raises an error. -/
theorem canCreateScratchOrg_iff (response : List LimitEntry) :
    (canCreateScratchOrg response = true ↔
      (∃ a, (getApiLimits response).find? (fun limit => limit.name == "ActiveScratchOrgs") = some a
          ∧ 0 < a.remaining)
      ∧ (∃ d, (getApiLimits response).find? (fun limit => limit.name == "DailyScratchOrgs") = some d
          ∧ 0 < d.remaining))
    ∧ (((getApiLimits response).find? (fun limit => limit.name == "ActiveScratchOrgs") = none
        ∨ (getApiLimits response).find? (fun limit => limit.name == "DailyScratchOrgs") = none)
        → canCreateScratchOrg response = false) := by
  constructor
  · cases ha : (getApiLimits response).find? (fun limit => limit.name == "ActiveScratchOrgs") with
    | none =>
      cases hd : (getApiLimits response).find? (fun limit => limit.name == "DailyScratchOrgs") with
      | none => simp [canCreateScratchOrg, ha, hd]
      | some d => simp [canCreateScratchOrg, ha, hd]
    | some a =>
      cases hd : (getApiLimits response).find? (fun limit => limit.name == "DailyScratchOrgs") with
      | none => simp [canCreateScratchOrg, ha, hd]
      | some d => simp [canCreateScratchOrg, ha, hd]
  · intro h
    cases h with
    | inl ha =>
      cases hd : (getApiLimits response).find? (fun limit => limit.name == "DailyScratchOrgs") with
      | none => simp [canCreateScratchOrg, ha, hd]
      | some d => simp [canCreateScratchOrg, ha, hd]
    | inr hd =>
      cases ha : (getApiLimits response).find? (fun limit => limit.name == "ActiveScratchOrgs") with
      | none => simp [canCreateScratchOrg, ha, hd]
      | some a => simp [canCreateScratchOrg, ha, hd]

/-- Witness for C1: the implication branch applied at the empty response. -/
theorem canCreateScratchOrg_iff_witness : canCreateScratchOrg [] = false :=
  (canCreateScratchOrg_iff []).2 (Or.inl (by decide))

/-- C2: when every candidate before `hub` connects but fails the capacity
check and `hub` connects and passes it, the selection loop returns exactly
`hub`, and the probe trace shows the candidates before `hub` and `hub` itself
were contacted in the caller-supplied order and nothing after `hub` was ever
contacted — whatever the entries after `hub` are. -/
theorem selectDevHub_first_success (pre : List DevHub) (hub : DevHub) (post : List DevHub)
    (response : List LimitEntry)
    (hpre : ∀ h ∈ pre, ∃ r, h.connect = Except.ok r ∧ canCreateScratchOrg r = false)
    (hconn : hub.connect = Except.ok response)
    (hcap : canCreateScratchOrg response = true) :
    selectDevHub (pre ++ hub :: post) =
      ((pre ++ [hub]).map DevHub.username, Except.ok hub) := by
  have hone : selectDevHub (hub :: post) = ([hub.username], Except.ok hub) := by
    simp [selectDevHub, hconn, hcap]
  rw [selectDevHub_skip pre (hub :: post) hpre, hone]
  simp

/-- Witness for C2: with `hubA` out of active capacity, `hubB` is selected and
`hubC` is never contacted (the example of spec section 8). -/
theorem selectDevHub_first_success_witness :
    selectDevHub [hubA, hubB, hubC] = (["hubA", "hubB"], Except.ok hubB) :=
  selectDevHub_first_success [hubA] hubB [hubC]
    [⟨"ActiveScratchOrgs", 100, 3⟩, ⟨"DailyScratchOrgs", 200, 1⟩]
    (by
      intro h hm
      rw [List.mem_singleton] at hm
      subst hm
      exact ⟨[⟨"ActiveScratchOrgs", 100, 0⟩], rfl, by decide⟩)
    rfl (by decide)

/-- C3: when every candidate connects but fails the capacity check, the run
loop raises the dedicated `noAvailableDevhubs` error after exhausting the
list, and that error is distinct from every per-candidate connection
failure. -/
theorem selectDevHub_exhausted (hubs : List DevHub)
    (hall : ∀ hub ∈ hubs, ∃ r, hub.connect = Except.ok r ∧ canCreateScratchOrg r = false) :
    (selectDevHub hubs).2 = Except.error HubError.noAvailableDevHubs
    ∧ ∀ msg, HubError.noAvailableDevHubs ≠ HubError.connectionFailure msg := by
  have h := selectDevHub_skip hubs [] hall
  rw [List.append_nil] at h
  constructor
  · rw [h]
    simp [selectDevHub]
  · intro msg
    simp

/-- Witness for C3: a single hub with zero active capacity yields the
`noAvailableDevhubs` error. -/
theorem selectDevHub_exhausted_witness :
    (selectDevHub [hubA]).2 = Except.error HubError.noAvailableDevHubs
    ∧ ∀ msg, HubError.noAvailableDevHubs ≠ HubError.connectionFailure msg :=
  selectDevHub_exhausted [hubA]
    (by
      intro h hm
      rw [List.mem_singleton] at hm
      subst hm
      exact ⟨[⟨"ActiveScratchOrgs", 100, 0⟩], rfl, by decide⟩)

/-- A guarded spread with a truthy (non-empty) flag binds its key. -/
theorem overlay_self (v : String) (hv : ¬ v = "") (key : String) (m : StrMap) :
    overlay (some v) key m key = some v := by
  simp [overlay, StrMap.insert, hv]

/-- A guarded spread leaves every other key untouched. -/
theorem overlay_other (flag : Option String) (key k : String) (h : ¬ k = key) (m : StrMap) :
    overlay flag key m k = m k := by
  cases flag with
  | none => rfl
  | some v =>
    by_cases hv : v = ""
    · simp [overlay, hv]
    · simp [overlay, StrMap.insert, hv, h]

/-- A guarded spread with a falsy flag (absent, or present but the empty
string) spreads nothing at all. -/
theorem overlay_falsy (flag : Option String) (h : flag = none ∨ flag = some "")
    (key : String) (m : StrMap) : overlay flag key m = m := by
  cases h with
  | inl h => rw [h]; rfl
  | inr h => rw [h]; simp [overlay]

/-- C5 counterexample: the claim "every explicitly supplied corresponding
flag overrides the file-provided key" fails for an explicitly supplied empty
`--name`: the assembled `orgConfig` keeps the definition file's `orgName`
instead of the flag's value. -/
theorem orgConfig_override_counterexample :
    ({ flagsFixture with
        name := some "", definitionFile := some [("orgName", "FileOrg")] } : RunFlags).name
      = some ""
    ∧ orgConfig { flagsFixture with
        name := some "", definitionFile := some [("orgName", "FileOrg")] } "orgName"
      = some "FileOrg"
    ∧ (some "FileOrg" : Option String) ≠ some "" := by
  refine ⟨rfl, by decide, by decide⟩

/-- C5 (amended): for every flag among `edition`, `username`, `description`,
`name`, `release`, `source-org` and `admin-email` that is supplied with a
truthy (non-empty) value, the flag's value overrides the definition-file key
in the assembled `orgConfig`; an empty-string flag is skipped by the
truthiness guard on its spread. -/
theorem orgConfig_flag_override (flags : RunFlags) (v : String) (hv : ¬ v = "") :
    (flags.edition = some v → orgConfig flags "edition" = some v)
    ∧ (flags.username = some v → orgConfig flags "username" = some v)
    ∧ (flags.description = some v → orgConfig flags "description" = some v)
    ∧ (flags.name = some v → orgConfig flags "orgName" = some v)
    ∧ (flags.release = some v → orgConfig flags "release" = some v)
    ∧ (flags.sourceOrg = some v → orgConfig flags "sourceOrg" = some v)
    ∧ (flags.adminEmail = some v → orgConfig flags "adminEmail" = some v) := by
  refine ⟨?_, ?_, ?_, ?_, ?_, ?_, ?_⟩
  · intro h
    simp only [orgConfig]
    rw [overlay_other flags.adminEmail "adminEmail" "edition" (by decide),
      overlay_other flags.sourceOrg "sourceOrg" "edition" (by decide),
      overlay_other flags.release "release" "edition" (by decide),
      overlay_other flags.name "orgName" "edition" (by decide),
      overlay_other flags.description "description" "edition" (by decide),
      overlay_other flags.username "username" "edition" (by decide),
      h, overlay_self v hv "edition"]
  · intro h
    simp only [orgConfig]
    rw [overlay_other flags.adminEmail "adminEmail" "username" (by decide),
      overlay_other flags.sourceOrg "sourceOrg" "username" (by decide),
      overlay_other flags.release "release" "username" (by decide),
      overlay_other flags.name "orgName" "username" (by decide),
      overlay_other flags.description "description" "username" (by decide),
      h, overlay_self v hv "username"]
  · intro h
    simp only [orgConfig]
    rw [overlay_other flags.adminEmail "adminEmail" "description" (by decide),
      overlay_other flags.sourceOrg "sourceOrg" "description" (by decide),
      overlay_other flags.release "release" "description" (by decide),
      overlay_other flags.name "orgName" "description" (by decide),
      h, overlay_self v hv "description"]
  · intro h
    simp only [orgConfig]
    rw [overlay_other flags.adminEmail "adminEmail" "orgName" (by decide),
      overlay_other flags.sourceOrg "sourceOrg" "orgName" (by decide),
      overlay_other flags.release "release" "orgName" (by decide),
      h, overlay_self v hv "orgName"]
  · intro h
    simp only [orgConfig]
    rw [overlay_other flags.adminEmail "adminEmail" "release" (by decide),
      overlay_other flags.sourceOrg "sourceOrg" "release" (by decide),
      h, overlay_self v hv "release"]
  · intro h
    simp only [orgConfig]
    rw [overlay_other flags.adminEmail "adminEmail" "sourceOrg" (by decide),
      h, overlay_self v hv "sourceOrg"]
  · intro h
    simp only [orgConfig]
    rw [h, overlay_self v hv "adminEmail"]

/-- Witness for C5 (amended): a non-empty `--name` overrides the definition
file's `orgName` key. -/
theorem orgConfig_flag_override_witness :
    orgConfig { flagsFixture with
      name := some "CLIOrg", definitionFile := some [("orgName", "FileOrg")] } "orgName"
      = some "CLIOrg" :=
  (orgConfig_flag_override
    { flagsFixture with name := some "CLIOrg", definitionFile := some [("orgName", "FileOrg")] }
    "CLIOrg" (by decide)).2.2.2.1 rfl

/-- C10: for every overlay flag among `edition`, `username`, `description`,
`name`, `release`, `source-org` and `admin-email` whose value is falsy
(absent or the empty string), the corresponding definition-file key is not
overridden: the assembled `orgConfig` agrees with the definition-file stage
at that key. -/
theorem orgConfig_falsy_flag (flags : RunFlags) :
    ((flags.edition = none ∨ flags.edition = some "") →
      orgConfig flags "edition" = fileConfig flags "edition")
    ∧ ((flags.username = none ∨ flags.username = some "") →
      orgConfig flags "username" = fileConfig flags "username")
    ∧ ((flags.description = none ∨ flags.description = some "") →
      orgConfig flags "description" = fileConfig flags "description")
    ∧ ((flags.name = none ∨ flags.name = some "") →
      orgConfig flags "orgName" = fileConfig flags "orgName")
    ∧ ((flags.release = none ∨ flags.release = some "") →
      orgConfig flags "release" = fileConfig flags "release")
    ∧ ((flags.sourceOrg = none ∨ flags.sourceOrg = some "") →
      orgConfig flags "sourceOrg" = fileConfig flags "sourceOrg")
    ∧ ((flags.adminEmail = none ∨ flags.adminEmail = some "") →
      orgConfig flags "adminEmail" = fileConfig flags "adminEmail") := by
  refine ⟨?_, ?_, ?_, ?_, ?_, ?_, ?_⟩
  · intro h
    simp only [orgConfig, overlay_falsy flags.edition h "edition"]
    rw [overlay_other flags.adminEmail "adminEmail" "edition" (by decide),
      overlay_other flags.sourceOrg "sourceOrg" "edition" (by decide),
      overlay_other flags.release "release" "edition" (by decide),
      overlay_other flags.name "orgName" "edition" (by decide),
      overlay_other flags.description "description" "edition" (by decide),
      overlay_other flags.username "username" "edition" (by decide)]
  · intro h
    simp only [orgConfig, overlay_falsy flags.username h "username"]
    rw [overlay_other flags.adminEmail "adminEmail" "username" (by decide),
      overlay_other flags.sourceOrg "sourceOrg" "username" (by decide),
      overlay_other flags.release "release" "username" (by decide),
      overlay_other flags.name "orgName" "username" (by decide),
      overlay_other flags.description "description" "username" (by decide),
      overlay_other flags.edition "edition" "username" (by decide)]
  · intro h
    simp only [orgConfig, overlay_falsy flags.description h "description"]
    rw [overlay_other flags.adminEmail "adminEmail" "description" (by decide),
      overlay_other flags.sourceOrg "sourceOrg" "description" (by decide),
      overlay_other flags.release "release" "description" (by decide),
      overlay_other flags.name "orgName" "description" (by decide),
      overlay_other flags.username "username" "description" (by decide),
      overlay_other flags.edition "edition" "description" (by decide)]
  · intro h
    simp only [orgConfig, overlay_falsy flags.name h "orgName"]
    rw [overlay_other flags.adminEmail "adminEmail" "orgName" (by decide),
      overlay_other flags.sourceOrg "sourceOrg" "orgName" (by decide),
      overlay_other flags.release "release" "orgName" (by decide),
      overlay_other flags.description "description" "orgName" (by decide),
      overlay_other flags.username "username" "orgName" (by decide),
      overlay_other flags.edition "edition" "orgName" (by decide)]
  · intro h
    simp only [orgConfig, overlay_falsy flags.release h "release"]
    rw [overlay_other flags.adminEmail "adminEmail" "release" (by decide),
      overlay_other flags.sourceOrg "sourceOrg" "release" (by decide),
      overlay_other flags.name "orgName" "release" (by decide),
      overlay_other flags.description "description" "release" (by decide),
      overlay_other flags.username "username" "release" (by decide),
      overlay_other flags.edition "edition" "release" (by decide)]
  · intro h
    simp only [orgConfig, overlay_falsy flags.sourceOrg h "sourceOrg"]
    rw [overlay_other flags.adminEmail "adminEmail" "sourceOrg" (by decide),
      overlay_other flags.release "release" "sourceOrg" (by decide),
      overlay_other flags.name "orgName" "sourceOrg" (by decide),
      overlay_other flags.description "description" "sourceOrg" (by decide),
      overlay_other flags.username "username" "sourceOrg" (by decide),
      overlay_other flags.edition "edition" "sourceOrg" (by decide)]
  · intro h
    simp only [orgConfig, overlay_falsy flags.adminEmail h "adminEmail"]
    rw [overlay_other flags.sourceOrg "sourceOrg" "adminEmail" (by decide),
      overlay_other flags.release "release" "adminEmail" (by decide),
      overlay_other flags.name "orgName" "adminEmail" (by decide),
      overlay_other flags.description "description" "adminEmail" (by decide),
      overlay_other flags.username "username" "adminEmail" (by decide),
      overlay_other flags.edition "edition" "adminEmail" (by decide)]

/-- Witness for C10: an explicitly supplied empty `--name` leaves the
definition file's `orgName` key in force. -/
theorem orgConfig_falsy_flag_witness :
    orgConfig { flagsFixture with
      name := some "", definitionFile := some [("orgName", "FileOrg")] } "orgName"
      = fileConfig { flagsFixture with
        name := some "", definitionFile := some [("orgName", "FileOrg")] } "orgName" :=
  (orgConfig_falsy_flag
    { flagsFixture with name := some "", definitionFile := some [("orgName", "FileOrg")] }
    ).2.2.2.1 (Or.inr rfl)

/-- C6: with `--async` set, the wait duration handed to `scratchOrgCreate` is
zero minutes and no scratch-org lifecycle progress subscription is installed;
without it, the configured `--wait` value is passed and the subscription is
installed. -/
theorem runSetup_async_spec (flags : RunFlags) (hub : DevHub) (secretInput : String) :
    (flags.async = true →
      (runSetup flags hub secretInput).options.wait = 0
      ∧ (runSetup flags hub secretInput).progressSubscribed = false)
    ∧ (flags.async = false →
      (runSetup flags hub secretInput).options.wait = flags.wait
      ∧ (runSetup flags hub secretInput).progressSubscribed = true) := by
  constructor
  · intro h
    simp [runSetup, h]
  · intro h
    simp [runSetup, h]

/-- Witness for C6: an async invocation waits zero minutes and subscribes to
nothing. -/
theorem runSetup_async_spec_witness :
    (runSetup { flagsFixture with async := true } hubB "secret").options.wait = 0
    ∧ (runSetup { flagsFixture with async := true } hubB "secret").progressSubscribed = false :=
  (runSetup_async_spec { flagsFixture with async := true } hubB "secret").1 rfl

/-- C7: the edition parse handler turns every value of the form
`partner-<rest>` into `partner <rest>` (the first hyphen becomes a space) and
passes every value not beginning with `partner-` through unchanged. -/
theorem editionParse_spec :
    (∀ rest : String, editionParse ("partner-" ++ rest) = "partner " ++ rest)
    ∧ ∀ value : String, jsStartsWith value "partner-" = false → editionParse value = value := by
  constructor
  · intro rest
    have hpre : jsStartsWith ("partner-" ++ rest) "partner-" = true := by
      simp [jsStartsWith]
    simp only [editionParse, hpre, if_true]
    apply String.ext
    show replaceFirstChar ("partner-" ++ rest).data '-' ' ' = ("partner " ++ rest).data
    rw [String.data_append, String.data_append,
      show "partner-".data = ['p', 'a', 'r', 't', 'n', 'e', 'r', '-'] from rfl,
      show "partner ".data = ['p', 'a', 'r', 't', 'n', 'e', 'r', ' '] from rfl]
    simp [replaceFirstChar]
  · intro value h
    simp [editionParse, h]

/-- Witness for C7: a partner edition is rewritten, a plain edition is
passed through. -/
theorem editionParse_spec_witness :
    editionParse "partner-developer" = "partner developer"
    ∧ editionParse "developer" = "developer" :=
  ⟨editionParse_spec.1 "developer", editionParse_spec.2 "developer" (by decide)⟩

/-- C9 counterexample: the claim says the `source-org` flag accepts both the
15- and the 18-character ID shapes, but the declaration sets `length: 15`, so
an 18-character ID beginning with `00D` is rejected. -/
theorem sourceOrg_counterexample :
    "00D000000000000000".length = 18
    ∧ jsStartsWith "00D000000000000000" "00D" = true
    ∧ salesforceIdAccepts sourceOrgFlagConfig "00D000000000000000" = false := by
  decide

/-- C9 (amended): the `source-org` flag accepts exactly the strings of 15
characters beginning with `00D`, per the declaration's `length: 15` and
`startsWith: '00D'`. -/
theorem sourceOrg_accepts_iff (input : String) :
    salesforceIdAccepts sourceOrgFlagConfig input = true ↔
      input.length = 15 ∧ jsStartsWith input "00D" = true := by
  simp [salesforceIdAccepts, sourceOrgFlagConfig]

/-- Witness for C9 (amended): a 15-character `00D` ID is accepted. -/
theorem sourceOrg_accepts_iff_witness :
    salesforceIdAccepts sourceOrgFlagConfig "00D000000000001" = true :=
  (sourceOrg_accepts_iff "00D000000000001").2 (by decide)

/-- C4: when `scratchOrgCreate` throws an `SfError` named
`ScratchOrgInfoTimeoutError` carrying a job identifier in its data, the
command emits a resume hint containing that identifier and terminates with
exit code 69; the exit outcome is distinct from a rethrown failure, and every
error not so named is rethrown unchanged. -/
theorem handleCreate_timeout (bin : String) (asyncFlag : Bool) (se : SfError) (jobId : String)
    (hname : se.name = "ScratchOrgInfoTimeoutError") (hdata : se.data = some jobId) :
    handleCreateOutcome bin asyncFlag (Except.error (CreateError.sfError se)) =
      ([actionResume bin jobId],
        CmdOutcome.exited 69 "The scratch org did not complete within your wait time")
    ∧ (∃ pre post, actionResume bin jobId = pre ++ jobId ++ post)
    ∧ (∀ err : CreateError,
        (∀ se', err = CreateError.sfError se' → ¬ se'.name = "ScratchOrgInfoTimeoutError") →
        handleCreateOutcome bin asyncFlag (Except.error err) = ([], CmdOutcome.threw err))
    ∧ (∀ e msg, CmdOutcome.exited 69 msg ≠ CmdOutcome.threw e) := by
  refine ⟨?_, ?_, ?_, ?_⟩
  · simp [handleCreateOutcome, hname, hdata]
  · exact ⟨("Run " ++ bin) ++ " simply org resume scratch --job-id ",
      " to resume scratch org creation", rfl⟩
  · intro err hne
    match err with
    | CreateError.sfError se' =>
      have hb : (se'.name == "ScratchOrgInfoTimeoutError") = false := by
        simp [hne se' rfl]
      simp [handleCreateOutcome, hb]
    | CreateError.other m => simp [handleCreateOutcome]
  · intro e msg
    simp

/-- Witness for C4: a concrete timeout error leads to the resume hint and
exit code 69. -/
theorem handleCreate_timeout_witness :
    handleCreateOutcome "sf" false
        (Except.error (CreateError.sfError
          ⟨"ScratchOrgInfoTimeoutError", "timed out", some "2SR000000001"⟩)) =
      ([actionResume "sf" "2SR000000001"],
        CmdOutcome.exited 69 "The scratch org did not complete within your wait time") :=
  (handleCreate_timeout "sf" false
    ⟨"ScratchOrgInfoTimeoutError", "timed out", some "2SR000000001"⟩ "2SR000000001"
    rfl rfl).1

/-- C8: when `scratchOrgCreate` resolves but the payload carries no
scratch-org info, `run` throws an internal `SfError` instead of returning a
partial result (the thrown outcome is distinct from every completed one); when
the info is present, `run` returns the record
`{ username, scratchOrgInfo, authFields, warnings, orgId: authFields?.orgId }`. -/
theorem handleCreate_success (bin : String) (asyncFlag : Bool) (result : CreateResult) :
    (result.scratchOrgInfo = none →
      (handleCreateOutcome bin asyncFlag (Except.ok result)).2 =
        CmdOutcome.threw (CreateError.sfError
          ⟨"SfError", "The scratch org did not return with any information", none⟩))
    ∧ (∀ info, result.scratchOrgInfo = some info →
      (handleCreateOutcome bin asyncFlag (Except.ok result)).2 =
        CmdOutcome.completed
          { username := result.username
            scratchOrgInfo := some info
            authFields := result.authFields
            warnings := result.warnings
            orgId := result.authFields.bind AuthFields.orgId })
    ∧ (∀ resp e, CmdOutcome.completed resp ≠ CmdOutcome.threw e) := by
  refine ⟨?_, ?_, ?_⟩
  · intro h
    simp [handleCreateOutcome, h]
  · intro info h
    simp [handleCreateOutcome, h]
  · intro resp e
    simp

/-- Witness for C8: a successful payload with scratch-org info present is
returned as the full response record, with `orgId` copied out of the auth
fields. -/
theorem handleCreate_success_witness :
    (handleCreateOutcome "sf" false
        (Except.ok ⟨some "user@example.com", some ⟨"2SR000000001"⟩,
          some ⟨some "00D000000000001"⟩, []⟩)).2 =
      CmdOutcome.completed
        ⟨some "user@example.com", some ⟨"2SR000000001"⟩,
          some ⟨some "00D000000000001"⟩, [], some "00D000000000001"⟩ :=
  (handleCreate_success "sf" false
    ⟨some "user@example.com", some ⟨"2SR000000001"⟩, some ⟨some "00D000000000001"⟩, []⟩
    ).2.1 ⟨"2SR000000001"⟩ rfl

end SimplyOrg
